import Mathlib

/-!
Verification of the Digital TMP Phase 1 core against its source.

This file gives a shallow embedding, in Lean 4, of the core logic of the
repository:

* the benchmark-script parser and the per-query execution loop of
  `src/phases/01_LegacyDB/src/profiling_modules/metrics_performance.py`
  (`run_performance_benchmarks`);
* the verification functions of
  `src/phases/01_LegacyDB/src/db_verification.py`
  (`verify_database_exists`, `verify_schema_populated`,
  `check_pipeline_prerequisites`);
* the comparative-statistics function of
  `src/phases/01_LegacyDB/src/04_run_comparison.py`
  (`calculate_comparative_performance_metrics`).

Pure text manipulation is embedded as functions on `List Char`; the Python
`re` idioms used by the source (a fixed delimiter pattern, two fixed tag
patterns, comment stripping) are embedded as the deterministic scanners
those particular patterns denote.  Database and filesystem effects are
embedded as explicit oracle records, with `Except` marking the steps at
which the Python code can observe an exception.  Machine floats are
idealised as `ℚ`; the non-finite float values (`NaN`, `±inf`) that can
arise in the pandas pipeline are collapsed into `Option.none`, and
`pandas.round(2)` is embedded as round-half-to-even at two decimals on `ℚ`.
Recursions over text that consume non-structural suffixes are written with
an explicit fuel argument (initialised to the text length, which always
suffices) so that every definition evaluates by kernel reduction.
-/

/-! ## Python string primitives -/

/-- The character class matched by Python's `\s` (ASCII fragment), also the
set stripped by `str.strip()`.  The source scripts are ASCII, so the
Unicode extension of `\s` is not modelled. -/
def isPySpace (c : Char) : Bool :=
  c = ' ' || c = '\t' || c = '\n' || c = '\r' || c = '\x0b' || c = '\x0c'

/-- The character class matched by Python's `\w` (ASCII fragment). -/
def isPyWord (c : Char) : Bool :=
  ('a' ≤ c && c ≤ 'z') || ('A' ≤ c && c ≤ 'Z') || ('0' ≤ c && c ≤ '9') || c = '_'

/-- Python's `\d` (ASCII fragment). -/
def isPyDigit (c : Char) : Bool :=
  '0' ≤ c && c ≤ '9'

/-- Case-insensitive character comparison, as used by `re.IGNORECASE` on
ASCII input. -/
def ciEq (a b : Char) : Bool :=
  a.toLower = b.toLower

/-- Strip a literal pattern prefix case-insensitively: `some rest` when
`l = pat ++ rest` up to ASCII case, `none` otherwise. -/
def stripPrefixCI : List Char → List Char → Option (List Char)
  | [], l => some l
  | _ :: _, [] => none
  | p :: ps, c :: cs => if ciEq c p then stripPrefixCI ps cs else none

theorem stripPrefixCI_length_le :
    ∀ (pat l rest : List Char), stripPrefixCI pat l = some rest →
      rest.length ≤ l.length := by
  intro pat
  induction pat with
  | nil =>
    intro l rest h
    simp [stripPrefixCI] at h
    simp [h]
  | cons p ps ih =>
    intro l rest h
    cases l with
    | nil => simp [stripPrefixCI] at h
    | cons c cs =>
      simp only [stripPrefixCI] at h
      by_cases hc : ciEq c p
      · simp [hc] at h
        exact Nat.le_succ_of_le (ih cs rest h)
      · simp [hc] at h

theorem dropWhile_length_le (p : Char → Bool) (l : List Char) :
    (l.dropWhile p).length ≤ l.length :=
  (List.dropWhile_sublist p (l := l)).length_le

/-- Python's `str.strip()`: remove leading and trailing whitespace. -/
def pyStrip (l : List Char) : List Char :=
  ((l.dropWhile isPySpace).reverse.dropWhile isPySpace).reverse

/-- Python's `str.capitalize()`: first character to upper case, the rest to
lower case. -/
def pyCapitalize : List Char → List Char
  | [] => []
  | c :: cs => c.toUpper :: cs.map Char.toLower

/-- Python's `str.lower()` on a Lean `String` (ASCII fragment). -/
def pyLower (s : String) : String :=
  String.mk (s.data.map Char.toLower)

/-! ## The `-- END Query` delimiter split

`re.split(r"--\s*END Query.*", sql_script, flags=re.IGNORECASE)` from
`metrics_performance.py` line 52.  For this particular pattern the
backtracking regex engine is deterministic: a match at a position consists
of the literal `--`, then the maximal run of whitespace (backtracking into
the run can never succeed because `E` is not a whitespace character), then
the literal `END Query` case-insensitively, then the maximal run of
non-newline characters (`.` does not match `\n`).  `re.split` takes the
leftmost match, splits, and continues after it. -/

/-- Try to match the delimiter pattern at the head of `l`; on success
return the suffix after the match. -/
def matchEndQueryAt (l : List Char) : Option (List Char) :=
  match l with
  | c1 :: c2 :: rest =>
    if c1 = '-' ∧ c2 = '-' then
      match stripPrefixCI "END Query".data (rest.dropWhile isPySpace) with
      | some r2 => some (r2.dropWhile (fun c => c ≠ '\n'))
      | none => none
    else none
  | _ => none

theorem matchEndQueryAt_length_lt (l rest : List Char)
    (h : matchEndQueryAt l = some rest) : rest.length < l.length := by
  cases l with
  | nil => simp [matchEndQueryAt] at h
  | cons c1 l1 =>
    cases l1 with
    | nil => simp [matchEndQueryAt] at h
    | cons c2 tl =>
      simp only [matchEndQueryAt] at h
      by_cases hd : c1 = '-' ∧ c2 = '-'
      · simp only [if_pos hd] at h
        cases hs : stripPrefixCI "END Query".data (tl.dropWhile isPySpace) with
        | none => simp [hs] at h
        | some r2 =>
          simp only [hs, Option.some.injEq] at h
          have h1 : r2.length ≤ (tl.dropWhile isPySpace).length :=
            stripPrefixCI_length_le _ _ _ hs
          have h2 : (tl.dropWhile isPySpace).length ≤ tl.length :=
            dropWhile_length_le _ _
          have h3 : rest.length ≤ r2.length := by
            rw [← h]
            exact dropWhile_length_le _ _
          simp only [List.length_cons]
          omega
      · simp [if_neg hd] at h

/-- Fuel-driven worker for the delimiter split: accumulate characters until
the delimiter matches, then emit the chunk.  Models the successive
non-overlapping leftmost matches taken by `re.split`.  The fuel is an upper
bound on the length of the remaining text; `pySplitEndQuery` supplies a
sufficient amount. -/
def splitEndQueryGo : ℕ → List Char → List Char → List (List Char)
  | _, acc, [] => [acc.reverse]
  | 0, acc, _ :: _ => [acc.reverse]
  | fuel + 1, acc, c :: rest =>
    match matchEndQueryAt (c :: rest) with
    | some rem => acc.reverse :: splitEndQueryGo fuel [] rem
    | none => splitEndQueryGo fuel (c :: acc) rest

/-- `re.split(r"--\s*END Query.*", script, flags=re.IGNORECASE)`. -/
def pySplitEndQuery (script : List Char) : List (List Char) :=
  splitEndQueryGo script.length [] script

example : pySplitEndQuery "a-- end query x\nb".data = ["a".data, "\nb".data] := by
  decide

example : pySplitEndQuery "ab".data = ["ab".data] := by decide

/-! ## Tag extraction

`re.search(r"--\s*CATEGORY:\s*(\w+)", chunk, re.IGNORECASE)` and
`re.search(r"--\s*QUERY:\s*(\d+(?:\.\d+)?)", chunk, re.IGNORECASE)` from
`metrics_performance.py` lines 56-58 and 72-77.  As for the delimiter,
backtracking is vacuous for these patterns (no whitespace character is a
word character or a digit), so each denotes a deterministic scanner;
`re.search` returns the leftmost match — first match wins. -/

/-- Match `--\s*CATEGORY:\s*(\w+)` at the head of `l`, returning group 1. -/
def matchCategoryAt (l : List Char) : Option (List Char) :=
  match l with
  | c1 :: c2 :: rest =>
    if c1 = '-' ∧ c2 = '-' then
      match stripPrefixCI "CATEGORY:".data (rest.dropWhile isPySpace) with
      | some r2 =>
        let w := (r2.dropWhile isPySpace).takeWhile isPyWord
        if w.isEmpty then none else some w
      | none => none
    else none
  | _ => none

/-- Match `--\s*QUERY:\s*(\d+(?:\.\d+)?)` at the head of `l`, returning
group 1 (a digit run, optionally followed by a dot and a second digit
run). -/
def matchQueryIdAt (l : List Char) : Option (List Char) :=
  match l with
  | c1 :: c2 :: rest =>
    if c1 = '-' ∧ c2 = '-' then
      match stripPrefixCI "QUERY:".data (rest.dropWhile isPySpace) with
      | some r2 =>
        let r3 := r2.dropWhile isPySpace
        let d1 := r3.takeWhile isPyDigit
        if d1.isEmpty then none
        else
          match r3.dropWhile isPyDigit with
          | '.' :: r5 =>
            let d2 := r5.takeWhile isPyDigit
            if d2.isEmpty then some d1 else some (d1 ++ '.' :: d2)
          | _ => some d1
      | none => none
    else none
  | _ => none

/-- `re.search` for a fixed pattern: try the matcher at every position,
left to right, and return the first group found. -/
def reSearchGroup (matcher : List Char → Option (List Char)) :
    List Char → Option (List Char)
  | [] => none
  | c :: rest =>
    match matcher (c :: rest) with
    | some g => some g
    | none => reSearchGroup matcher rest

/-! ## Comment stripping

`re.sub(r"--.*$", "", chunk, flags=re.MULTILINE)` from
`metrics_performance.py` line 85.  `.` does not match `\n`, so every match
lies within one line and consumes from the leftmost `--` of the line to the
line's end: linewise truncation at the first `--`. -/

/-- Truncate a single line at its first `--`. -/
def truncAtComment : List Char → List Char
  | [] => []
  | '-' :: '-' :: _ => []
  | c :: rest => c :: truncAtComment rest

/-- Split a text into its `\n`-separated lines (keeping empty lines). -/
def splitNl : List Char → List (List Char)
  | [] => [[]]
  | c :: rest =>
    if c = '\n' then [] :: splitNl rest
    else
      match splitNl rest with
      | [] => [[c]]
      | h :: t => (c :: h) :: t

/-- `re.sub(r"--.*$", "", chunk, flags=re.MULTILINE)`. -/
def stripComments (chunk : List Char) : List Char :=
  List.intercalate ['\n'] ((splitNl chunk).map truncAtComment)

/-! ## The chunk-to-query-unit step

The pure part of the loop body of `run_performance_benchmarks`
(`metrics_performance.py` lines 67-89): skip whitespace-only chunks,
extract the tags with the `"Unknown"` fallback, strip comments, and skip
chunks whose SQL is empty after stripping. -/

structure QueryUnit where
  category : List Char
  query_id : List Char
  raw_sql : List Char
deriving DecidableEq, Repr

/-- Parse one chunk into a query unit, or `none` when the loop `continue`s
(whitespace-only chunk, or no SQL left after comment stripping). -/
def unitOfChunk (chunk : List Char) : Option QueryUnit :=
  if (pyStrip chunk).isEmpty then none
  else
    let category := (reSearchGroup matchCategoryAt chunk).getD "Unknown".data
    let qid := (reSearchGroup matchQueryIdAt chunk).getD "Unknown".data
    let sql := pyStrip (stripComments chunk)
    if sql.isEmpty then none
    else some ⟨category, qid, sql⟩

/-- The parser of the Benchmark Harness: split on the delimiter and convert
each surviving chunk to a `QueryUnit`, in source order. -/
def parseQueryUnits (script : List Char) : List QueryUnit :=
  (pySplitEndQuery script).filterMap unitOfChunk

/-- The `query_name` synthesised at `metrics_performance.py` line 80:
`f"{category.capitalize()} Performance - Query {query_id}"`. -/
def queryNameOf (u : QueryUnit) : List Char :=
  pyCapitalize u.category ++ " Performance - Query ".data ++ u.query_id

example :
    parseQueryUnits ("-- CATEGORY: baseline\n-- QUERY: 1.1\nSELECT 1;\n-- END Query\n\n-- CATEGORY: perf\n-- QUERY: 2.1\nSELECT 2;\n-- END Query").data
      = [⟨"baseline".data, "1.1".data, "SELECT 1;".data⟩,
         ⟨"perf".data, "2.1".data, "SELECT 2;".data⟩] := by
  decide

/-! ## Template substitution and error-message truncation -/

/-- Fuel-driven worker for `str.replace` with the fixed pattern
`${schema}` (9 characters): leftmost, non-overlapping occurrences are
replaced left to right. -/
def replaceSchemaGo : ℕ → List Char → List Char → List Char
  | _, _, [] => []
  | 0, _, l => l
  | fuel + 1, schema, c :: rest =>
    if List.isPrefixOf "${schema}".data (c :: rest) then
      schema ++ replaceSchemaGo fuel schema (rest.drop 8)
    else c :: replaceSchemaGo fuel schema rest

/-- `sql_to_execute.replace("${schema}", schema_name)` from
`metrics_performance.py` line 98. -/
def substSchema (schema sql : List Char) : List Char :=
  replaceSchemaGo sql.length schema sql

example : substSchema "s1".data "SELECT * FROM ${schema}.t".data
    = "SELECT * FROM s1.t".data := by decide

/-- The line boundaries recognised by Python's `str.splitlines` (ASCII
fragment). -/
def isPyLineBreak (c : Char) : Bool :=
  c = '\n' || c = '\r' || c = '\x0b' || c = '\x0c' ||
  c = '\x1c' || c = '\x1d' || c = '\x1e' || c = '\x85'

/-- `str(e).splitlines()[0]` from `metrics_performance.py` line 126:
the first line of the exception text, or `none` for the `IndexError`
raised when the text is empty (`"".splitlines() == []`). -/
def pyFirstSplitline (l : List Char) : Option (List Char) :=
  if l.isEmpty then none
  else some (l.takeWhile (fun c => !(isPyLineBreak c)))

/-! ## The benchmark execution loop

`run_performance_benchmarks` (`metrics_performance.py` lines 37-140).  The
database connection is embedded as an oracle over an abstract committed
state `σ`.  A statement submitted in its own transaction can end in three
ways, mirroring where the `try` block of lines 102-117 can raise:
* an exception during `connection.execute` or `result.fetchall()`
  (lines 104-108), at which point `latency_ms` is still `None` and
  `records_returned` still `0`;
* an exception at `trans.commit()` (line 117), at which point
  `latency_ms` and `records_returned` were already assigned at lines
  109-115, so the `except` block produces a `Failed` row that keeps them;
* a successful commit, which advances the committed state.
`trans.rollback()` is embedded by state threading: a rolled-back query —
either failure kind — leaves the committed state exactly as it was before
the transaction began.  `time.perf_counter()` is monotonic, so every
measured latency is non-negative; theorems take that clock guarantee as
explicit hypotheses on the oracle. -/

/-- Outcome of running one statement in its own transaction. -/
inductive ExecResult (σ : Type) where
  | execError (msg : List Char)
  | commitError (records : ℕ) (elapsedMs : ℚ) (msg : List Char)
  | committed (state : σ) (records : ℕ) (elapsedMs : ℚ)

/-- The connection oracle: committed state and SQL text to outcome. -/
def ExecOracle (σ : Type) :=
  σ → List Char → ExecResult σ

/-- One row of the returned results table (`metrics_performance.py`
lines 131-138). -/
structure BenchRow where
  query_name : List Char
  status : String
  latency_ms : Option ℚ
  records_returned : ℕ
  error_message : List Char
  executed_sql : List Char
deriving DecidableEq, Repr

/-- A `Success` row as built by lines 103-120 and 131-138. -/
def successRow (u : QueryUnit) (finalSql : List Char) (records : ℕ)
    (elapsedMs : ℚ) : BenchRow :=
  { query_name := queryNameOf u
    status := "Success"
    latency_ms := some elapsedMs
    records_returned := records
    error_message := []
    executed_sql := finalSql }

/-- A `Failed` row for an exception raised during execute/fetch (lines
104-108 and 122-138): `latency_ms` and `records_returned` still hold their
initial `None`/`0`; `first` is the first line of the exception text. -/
def failedRow (u : QueryUnit) (finalSql first : List Char) : BenchRow :=
  { query_name := queryNameOf u
    status := "Failed"
    latency_ms := none
    records_returned := 0
    error_message := first
    executed_sql := finalSql }

/-- A `Failed` row for an exception raised at `trans.commit()` (line 117):
the `latency_ms` and `records_returned` assigned at lines 109-115 before
the commit survive into the appended row. -/
def commitFailedRow (u : QueryUnit) (finalSql first : List Char)
    (records : ℕ) (elapsedMs : ℚ) : BenchRow :=
  { query_name := queryNameOf u
    status := "Failed"
    latency_ms := some elapsedMs
    records_returned := records
    error_message := first
    executed_sql := finalSql }

/-- The per-chunk loop of `run_performance_benchmarks` (lines 67-138).
`Except.error ()` is the one uncaught exception path: the `IndexError`
raised at line 126 when an exception's text is empty. -/
def runBenchLoop (ex : ExecOracle σ) (schema : List Char) :
    σ → List (List Char) → Except Unit (List BenchRow)
  | _, [] => .ok []
  | st, chunk :: rest =>
    match unitOfChunk chunk with
    | none => runBenchLoop ex schema st rest
    | some u =>
      let finalSql := substSchema schema u.raw_sql
      match ex st finalSql with
      | .committed st' records elapsedMs =>
        match runBenchLoop ex schema st' rest with
        | .ok rows => .ok (successRow u finalSql records elapsedMs :: rows)
        | .error e => .error e
      | .commitError records elapsedMs msg =>
        match pyFirstSplitline msg with
        | none => .error ()
        | some first =>
          match runBenchLoop ex schema st rest with
          | .ok rows =>
            .ok (commitFailedRow u finalSql first records elapsedMs :: rows)
          | .error e => .error e
      | .execError msg =>
        match pyFirstSplitline msg with
        | none => .error ()
        | some first =>
          match runBenchLoop ex schema st rest with
          | .ok rows => .ok (failedRow u finalSql first :: rows)
          | .error e => .error e

/-- The filesystem surface consumed by `run_performance_benchmarks`:
whether the query file exists, and the outcome of reading it (`Except`
error = the caught `IOError`). -/
structure FileEnv where
  fileExists : Bool
  readResult : Except (List Char) (List Char)

/-- `run_performance_benchmarks` (`metrics_performance.py` lines 15-140).
The `db_name` argument of the source only feeds log messages and is
omitted. -/
def run_performance_benchmarks (env : FileEnv) (ex : ExecOracle σ) (st : σ)
    (schema : List Char) : Except Unit (List BenchRow) :=
  if env.fileExists = false then .ok []
  else
    match env.readResult with
    | .error _ => .ok []
    | .ok script => runBenchLoop ex schema st (pySplitEndQuery script)

/-! ## Database existence verification

`verify_database_exists` (`db_verification.py` lines 31-64).  The two
effectful steps — the catalog query on the root engine and the test
connection to the named database — are embedded as oracle fields returning
`Except`, whose `error` case is the `SQLAlchemyError` caught at line 62. -/

structure DbEnv where
  catalogHasDb : String → Except String Bool
  connectToDb : String → Except String Unit

/-- `verify_database_exists(engine, db_name)`: catalog membership, then an
actual connection test; any `SQLAlchemyError` is caught and yields
`false`. -/
def verify_database_exists (env : DbEnv) (db_name : String) : Bool :=
  match env.catalogHasDb db_name with
  | .error _ => false
  | .ok false => false
  | .ok true =>
    match env.connectToDb db_name with
    | .error _ => false
    | .ok _ => true

/-! ## Schema population verification

`verify_schema_populated` (`db_verification.py` lines 70-156).  The live
state observed through the connection is embedded as: either a connection
level `SQLAlchemyError` (caught at line 154), or the catalog answer for
the schema plus the ordered list of base tables, each with the outcome of
its `COUNT(*)` query (`none` = the per-table `SQLAlchemyError` caught at
line 129). -/

inductive SchemaState where
  | connError (msg : String)
  | live (schemaInCatalog : Bool) (tables : List (String × Option ℕ))

/-- `verify_schema_populated(engine, schema_name, min_tables)`, returning
`(is_populated, table_stats)`; a failed per-table count is recorded as the
sentinel `-1` and `total_rows` accumulates only the successful counts. -/
def verify_schema_populated (st : SchemaState) (min_tables : ℕ) :
    Bool × List (String × ℤ) :=
  match st with
  | .connError _ => (false, [])
  | .live schemaInCatalog tables =>
    if !schemaInCatalog then (false, [])
    else if tables.length < min_tables then (false, [])
    else
      let table_stats : List (String × ℤ) :=
        tables.map (fun p => (p.1, match p.2 with | some k => (k : ℤ) | none => -1))
      let total_rows : ℕ := (tables.filterMap (fun p => p.2)).sum
      let is_populated :=
        decide (min_tables ≤ tables.length) && decide (0 < total_rows) &&
          table_stats.all (fun p => decide (0 ≤ p.2))
      (is_populated, table_stats)

/-! ## Pipeline prerequisite gate

`check_pipeline_prerequisites` (`db_verification.py` lines 242-338).  The
configuration bundle and the environment the checks observe are embedded
explicitly; `createEngine` is the one step at which the source can observe
an exception (engine construction), caught by the `except Exception` at
line 326 and folded into the generic error entry.  The two verification
helpers called here catch their own `SQLAlchemyError`s and are embedded as
total fields. -/

structure PrereqCfg where
  user : String
  password : String
  host : String
  port : String
  root_db : String
  source_db : String
  legacy_dbs : List String
  benchmark_dbs : List String

structure PrereqEnv where
  createEngine : String → Except String Unit
  dbExists : String → Bool
  schemaPopulated : String → String → ℕ → Bool × List (String × ℤ)
  metricsDirExists : Bool
  metricFileCount : ℕ

/-- The connection string built at `db_verification.py` lines 256-259 (and
271-274). -/
def pgConnStr (cfg : PrereqCfg) (db : String) : String :=
  "postgresql+psycopg2://" ++ cfg.user ++ ":" ++ cfg.password ++ "@" ++
    cfg.host ++ ":" ++ cfg.port ++ "/" ++ db

/-- `check_pipeline_prerequisites(cfg, script_name)`, returning
`(prerequisites_met, error_messages)`. -/
def check_pipeline_prerequisites (env : PrereqEnv) (cfg : PrereqCfg)
    (script_name : String) : Bool × List String :=
  let errors : List String :=
    match env.createEngine (pgConnStr cfg cfg.root_db) with
    | .error e => ["Failed to check prerequisites: " ++ e]
    | .ok _ =>
      if script_name = "01_create_benchmark_dbs.py" then
        if env.dbExists cfg.source_db = false then
          ["Source database '" ++ cfg.source_db ++
            "' does not exist or is not accessible"]
        else
          match env.createEngine (pgConnStr cfg cfg.source_db) with
          | .error e => ["Failed to check prerequisites: " ++ e]
          | .ok _ =>
            let schema_name := pyLower cfg.source_db
            if (env.schemaPopulated cfg.source_db schema_name 15).1 then []
            else
              ["Source schema '" ++ schema_name ++ "' in database '" ++
                cfg.source_db ++
                "' is not properly populated. Run 00_setup_databases.py first."]
      else if script_name = "02_run_profiling_pipeline.py" then
        (cfg.legacy_dbs ++ cfg.benchmark_dbs).filterMap
          (fun db =>
            if env.dbExists db then none
            else some ("Database '" ++ db ++ "' does not exist"))
      else if script_name = "03_generate_erds.py" then
        (cfg.legacy_dbs ++ cfg.benchmark_dbs).filterMap
          (fun db =>
            if env.dbExists db then none
            else some ("Database '" ++ db ++ "' does not exist"))
      else if script_name = "04_run_comparison.py" then
        if env.metricsDirExists = false then
          ["Metrics directory does not exist. Run 02_run_profiling_pipeline.py first."]
        else if env.metricFileCount = 0 then
          ["No metric files found. Run 02_run_profiling_pipeline.py first."]
        else []
      else []
  (errors.isEmpty, errors)

/-! ## Comparative performance metrics

`calculate_comparative_performance_metrics` (`04_run_comparison.py` lines
217-279).  A metric-file pool is embedded as a list of database entries
(the dict produced by `load_all_metrics`: database name, `is_benchmark`
flag, optionally a `performance_benchmarks` table).  Latencies are the
values after the `pd.to_numeric(errors="coerce")` coercion of line 249:
`none` stands for a non-numeric/NaN cell.  Arithmetic that produces a
non-finite float (`NaN` from missing operands, `NaN`/`±inf` from division
by zero) is collapsed into `none`. -/

/-- Round half to even (banker's rounding), the rounding used by
`pandas.round`. -/
def rhEven (q : ℚ) : ℤ :=
  let n := ⌊q⌋
  let f := q - n
  if f < 1 / 2 then n
  else if 1 / 2 < f then n + 1
  else if Even n then n else n + 1

/-- `Series.round(2)` on an ideal (rational) value. -/
def round2 (q : ℚ) : ℚ :=
  (rhEven (q * 100) : ℚ) / 100

/-- NaN-propagating subtraction on idealised float cells. -/
def optSub : Option ℚ → Option ℚ → Option ℚ
  | some a, some b => some (a - b)
  | _, _ => none

/-- NaN-propagating division on idealised float cells; a zero divisor
yields a non-finite float, collapsed into `none`. -/
def optDiv : Option ℚ → Option ℚ → Option ℚ
  | some a, some b => if b = 0 then none else some (a / b)
  | _, _ => none

/-- One row of a loaded `performance_benchmarks` table. -/
structure BenchCsvRow where
  query_name : String
  status : String
  latency_ms : Option ℚ
deriving DecidableEq

/-- One entry of the `load_all_metrics` result: a database with its
`is_benchmark` flag and, when present, its `performance_benchmarks`
table. -/
structure DbEntry where
  database : String
  is_benchmark : Bool
  perf : Option (List BenchCsvRow)
deriving DecidableEq

/-- Fuel-driven worker for `str.split(" - ")`: split at leftmost,
non-overlapping occurrences of the three-character separator. -/
def splitDashGo : ℕ → List Char → List Char → List (List Char)
  | _, acc, [] => [acc.reverse]
  | 0, acc, _ :: _ => [acc.reverse]
  | fuel + 1, acc, c :: rest =>
    if List.isPrefixOf " - ".data (c :: rest) then
      acc.reverse :: splitDashGo fuel [] (rest.drop 2)
    else splitDashGo fuel (c :: acc) rest

/-- `query_name.split(" - ")` as applied elementwise by
`df["query_name"].str.split(" - ")` (line 234). -/
def pySplitDash (s : String) : List (List Char) :=
  splitDashGo s.data.length [] s.data

/-- `df["query_name"].str.split(" - ").str[0]` (line 234). -/
def categoryOf (query_name : String) : String :=
  String.mk ((pySplitDash query_name).headD [])

/-- `df["query_name"].str.split(" - ").str[1]` (line 235); `none` when the
split has no second part (a NaN cell in pandas). -/
def queryIdOf (query_name : String) : Option String :=
  ((pySplitDash query_name).get? 1).map String.mk

/-- A benchmark-result row after the labelling of lines 229-236: tagged
with its database, the `is_benchmark` flag and the derived category and
query id. -/
structure PerfRow where
  query_name : String
  status : String
  latency_ms : Option ℚ
  database : String
  is_benchmark : Bool
  category : String
  query_id : Option String
deriving DecidableEq

def labelRow (d : DbEntry) (r : BenchCsvRow) : PerfRow :=
  { query_name := r.query_name
    status := r.status
    latency_ms := r.latency_ms
    database := d.database
    is_benchmark := d.is_benchmark
    category := categoryOf r.query_name
    query_id := queryIdOf r.query_name }

/-- A row of the final comparative table (lines 265-276). -/
structure CompRow where
  row : PerfRow
  baseline_latency_ms : Option ℚ
  schema_efficiency_factor : Option ℚ
  performance_improvement_factor : Option ℚ
deriving DecidableEq

/-- The three shapes the function can return: the empty frame
(`pd.DataFrame()`, lines 241 and 247), the plain `df_success` frame without
comparative columns (line 255), or the full comparative table
(line 279). -/
inductive CompOutput where
  | emptyTable
  | rawSuccess (rows : List PerfRow)
  | table (rows : List CompRow)
deriving DecidableEq

/-- The per-category baseline of lines 258-263: the minimum latency among
`df_success` rows whose database is one of the benchmark databases and
whose category matches; `none` when the merge of line 265 finds no such
row (NaN baseline). -/
def baselineLatency (df_success : List PerfRow) (benchmark_dbs : List String)
    (cat : String) : Option ℚ :=
  ((df_success.filter
      (fun r => benchmark_dbs.contains r.database && r.category == cat)).filterMap
    (fun r => r.latency_ms)).min?

/-- `benchmark_dbs` (line 252): the distinct databases owning a
benchmark-flagged row of `df_success`. -/
def benchmarkDbs (df_success : List PerfRow) : List String :=
  ((df_success.filter (fun r => r.is_benchmark)).map
    (fun r => r.database)).dedup

/-- One output row (lines 265-276): the merged baseline, the two derived
factors of lines 267-273, and the benchmark-row override of lines
275-276, which replaces whatever `performance_improvement_factor` was
computed with exactly `0.0`. -/
def codeCompRow (df_success : List PerfRow) (benchmark_dbs : List String)
    (r : PerfRow) : CompRow :=
  let b := baselineLatency df_success benchmark_dbs r.category
  { row := r
    baseline_latency_ms := b
    schema_efficiency_factor := (optDiv r.latency_ms b).map round2
    performance_improvement_factor :=
      if benchmark_dbs.contains r.database then some 0
      else (optDiv (optSub r.latency_ms b) r.latency_ms).map
        (fun q => round2 (q * 100)) }

/-- The pool of labelled benchmark rows after the concatenation of line
243: every database's `performance_benchmarks` rows, tagged. -/
def labeledPool (all_data : List DbEntry) : List PerfRow :=
  (all_data.filterMap
    (fun d => d.perf.map (fun rows => rows.map (labelRow d)))).flatten

/-- `calculate_comparative_performance_metrics(all_data)` (lines
217-279). -/
def calculate_comparative_performance_metrics (all_data : List DbEntry) :
    CompOutput :=
  let perf_data := all_data.filterMap
    (fun d => d.perf.map (fun rows => rows.map (labelRow d)))
  if perf_data.isEmpty then .emptyTable
  else
    let df := perf_data.flatten
    let df_success := df.filter (fun r => r.status == "Success")
    if df_success.isEmpty then .emptyTable
    else
      if (benchmarkDbs df_success).isEmpty then .rawSuccess df_success
      else
        .table (df_success.map (codeCompRow df_success (benchmarkDbs df_success)))

/-! ## Shared helper lemmas -/

theorem filterMap_ite_eq_filter_map {α β : Type} (p : α → Bool) (f : α → β)
    (l : List α) :
    (l.filterMap fun a => if p a then none else some (f a)) =
      (l.filter fun a => !(p a)).map f := by
  induction l with
  | nil => simp
  | cons a t ih =>
    by_cases h : p a <;> simp [h, ih]


/-- Evaluation of `verify_schema_populated` once the counting step is
reached: the schema exists and the table-count bar is met. -/
theorem verify_schema_populated_live (tables : List (String × Option ℕ))
    (m : ℕ) (h : ¬ tables.length < m) :
    verify_schema_populated (.live true tables) m =
      (decide (m ≤ tables.length) &&
        decide (0 < (tables.filterMap (fun p => p.2)).sum) &&
        (tables.map (fun p =>
            (p.1, match p.2 with | some k => (k : ℤ) | none => -1))).all
          (fun p => decide (0 ≤ p.2)),
       tables.map (fun p =>
         (p.1, match p.2 with | some k => (k : ℤ) | none => -1))) := by
  simp [verify_schema_populated, h]

/-- C3: in `verify_schema_populated`, once the per-table counting step is
reached (schema present, table count at least `min_tables`), any `-1`
sentinel in the returned `table_stats` forces `passed = false`; and
conversely `passed = true` requires the schema to exist, the table-count
bar, a strictly positive sum of the successfully counted rows, and the
absence of any `-1` sentinel in the returned `table_stats`. -/
theorem verify_schema_populated_sentinel (st : SchemaState) (min_tables : ℕ) :
    (∀ tables, st = .live true tables → min_tables ≤ tables.length →
        (∃ q ∈ (verify_schema_populated st min_tables).2, q.2 = -1) →
        (verify_schema_populated st min_tables).1 = false)
    ∧ ((verify_schema_populated st min_tables).1 = true →
        ∃ tables, st = .live true tables ∧ min_tables ≤ tables.length ∧
          0 < (tables.filterMap (fun p => p.2)).sum ∧
          ∀ q ∈ (verify_schema_populated st min_tables).2, 0 ≤ q.2) := by
  constructor
  · rintro tables rfl hmin ⟨q, hq, hneg⟩
    rw [verify_schema_populated_live tables min_tables (by omega)] at hq ⊢
    have hall : ((tables.map (fun p =>
        (p.1, match p.2 with | some k => (k : ℤ) | none => -1))).all
          (fun p => decide (0 ≤ p.2))) = false := by
      rw [List.all_eq_false]
      exact ⟨q, hq, by simp [hneg]⟩
    simp [hall]
  · intro hpass
    cases st with
    | connError msg => simp [verify_schema_populated] at hpass
    | live schemaInCatalog tables =>
      cases schemaInCatalog with
      | false => simp [verify_schema_populated] at hpass
      | true =>
        by_cases hlen : tables.length < min_tables
        · simp [verify_schema_populated, hlen] at hpass
        · rw [verify_schema_populated_live tables min_tables hlen] at hpass
          simp only [Bool.and_eq_true, decide_eq_true_eq, List.all_eq_true] at hpass
          refine ⟨tables, rfl, hpass.1.1, hpass.1.2, ?_⟩
          rw [verify_schema_populated_live tables min_tables hlen]
          intro q hq
          have := hpass.2 q hq
          simpa using this

/-- C3 witness: a concrete state with one healthy table and one failed
count is rejected, and a healthy two-table state is accepted. -/
theorem verify_schema_populated_sentinel_witness :
    (verify_schema_populated
        (.live true [("a", some 7), ("t", none)]) 1).1 = false ∧
    (verify_schema_populated
        (.live true [("a", some 7), ("b", some 2)]) 2).1 = true := by
  constructor
  · exact (verify_schema_populated_sentinel
      (.live true [("a", some 7), ("t", none)]) 1).1
      [("a", some 7), ("t", none)] rfl (by decide)
      ⟨("t", -1), by decide, by decide⟩
  · decide

/-- C8: `verify_database_exists` always returns a boolean — it is `true`
exactly when the catalog query answers yes and the test connection
succeeds; in particular a catalog entry without a working connection
yields `false` (the connection error is caught), never an exception. -/
theorem verify_database_exists_no_raise (env : DbEnv) (db_name : String) :
    (verify_database_exists env db_name = true ↔
      env.catalogHasDb db_name = .ok true ∧ env.connectToDb db_name = .ok ())
    ∧ (∀ m, env.catalogHasDb db_name = .ok true →
        env.connectToDb db_name = .error m →
        verify_database_exists env db_name = false) := by
  constructor
  · unfold verify_database_exists
    cases hc : env.catalogHasDb db_name with
    | error e => simp [hc]
    | ok b =>
      cases b with
      | false => simp [hc]
      | true =>
        cases ht : env.connectToDb db_name with
        | error m => simp [hc, ht]
        | ok u => cases u; simp [hc, ht]
  · intro m hc ht
    unfold verify_database_exists
    rw [hc, ht]

/-- C8 witness: with a catalog that answers yes but a connection that
fails, the function returns `false`; with both succeeding, `true`. -/
theorem verify_database_exists_no_raise_witness :
    verify_database_exists
      ⟨fun _ => .ok true, fun _ => .error "refused"⟩ "tmp_df9" = false ∧
    verify_database_exists
      ⟨fun _ => .ok true, fun _ => .ok ()⟩ "tmp_df9" = true := by
  constructor
  · exact (verify_database_exists_no_raise
      ⟨fun _ => .ok true, fun _ => .error "refused"⟩ "tmp_df9").2
      "refused" rfl rfl
  · exact (verify_database_exists_no_raise
      ⟨fun _ => .ok true, fun _ => .ok ()⟩ "tmp_df9").1.mpr ⟨rfl, rfl⟩

/-- The four script names recognised by the Prerequisite Gate's lookup
chain. -/
def knownStageScripts : List String :=
  ["01_create_benchmark_dbs.py", "02_run_profiling_pipeline.py",
   "03_generate_erds.py", "04_run_comparison.py"]

/-- C7: a script name outside the lookup table is vacuously satisfied —
`met = true`, no errors — whatever the database-state oracle answers
(engine construction, the one pre-lookup step, succeeding). -/
theorem check_pipeline_prerequisites_unknown_script (env : PrereqEnv)
    (cfg : PrereqCfg) (script_name : String)
    (hscript : script_name ∉ knownStageScripts)
    (hengine : env.createEngine (pgConnStr cfg cfg.root_db) = .ok ()) :
    check_pipeline_prerequisites env cfg script_name = (true, []) := by
  simp only [knownStageScripts, List.mem_cons, List.not_mem_nil, or_false,
    not_or] at hscript
  obtain ⟨h1, h2, h3, h4⟩ := hscript
  unfold check_pipeline_prerequisites
  rw [hengine]
  simp [h1, h2, h3, h4]

/-- C7 witness: an unknown stage name passes vacuously even though every
database check of the environment would fail. -/
theorem check_pipeline_prerequisites_unknown_script_witness :
    check_pipeline_prerequisites
      ⟨fun _ => .ok (), fun _ => false, fun _ _ _ => (false, []), false, 0⟩
      ⟨"u", "p", "h", "5432", "root", "src", ["l1"], ["b1"]⟩
      "99_new_stage.py" = (true, []) :=
  check_pipeline_prerequisites_unknown_script _ _ _ (by decide) rfl

/-- C6: `check_pipeline_prerequisites` always returns a well-formed report:
`met` holds exactly when the error list is empty; an exception during
evaluation (engine construction, the step the `except Exception` guards
first) is folded into the single generic error entry; and for the
profiling stage the error list is the configured databases that fail the
existence check, in configuration order (first failure first). -/
theorem check_pipeline_prerequisites_report (env : PrereqEnv)
    (cfg : PrereqCfg) (script_name : String) :
    ((check_pipeline_prerequisites env cfg script_name).1 = true ↔
      (check_pipeline_prerequisites env cfg script_name).2 = [])
    ∧ (∀ e, env.createEngine (pgConnStr cfg cfg.root_db) = .error e →
        (check_pipeline_prerequisites env cfg script_name).2 =
          ["Failed to check prerequisites: " ++ e])
    ∧ (script_name = "02_run_profiling_pipeline.py" →
        env.createEngine (pgConnStr cfg cfg.root_db) = .ok () →
        (check_pipeline_prerequisites env cfg script_name).2 =
          ((cfg.legacy_dbs ++ cfg.benchmark_dbs).filter
              (fun db => !(env.dbExists db))).map
            (fun db => "Database '" ++ db ++ "' does not exist")) := by
  refine ⟨?_, ?_, ?_⟩
  · simp only [check_pipeline_prerequisites]
    exact List.isEmpty_iff
  · intro e he
    simp only [check_pipeline_prerequisites, he]
  · rintro rfl hok
    simp only [check_pipeline_prerequisites, hok]
    rw [if_neg (by decide), if_pos trivial]
    exact filterMap_ite_eq_filter_map _ _ _

/-- C6 witness: with two databases missing out of three, the profiling
stage reports exactly those two, in configuration order, and `met` is
false; the generic-error clause fires on an engine-construction failure. -/
theorem check_pipeline_prerequisites_report_witness :
    (check_pipeline_prerequisites
        ⟨fun _ => .ok (), fun db => db == "l2", fun _ _ _ => (true, []), true, 3⟩
        ⟨"u", "p", "h", "5432", "root", "src", ["l1", "l2"], ["b1"]⟩
        "02_run_profiling_pipeline.py").2 =
      ["Database 'l1' does not exist", "Database 'b1' does not exist"] ∧
    (check_pipeline_prerequisites
        ⟨fun _ => .error "bad port", fun _ => true, fun _ _ _ => (true, []), true, 3⟩
        ⟨"u", "p", "h", "x", "root", "src", [], []⟩
        "02_run_profiling_pipeline.py").2 =
      ["Failed to check prerequisites: bad port"] := by
  constructor
  · rw [(check_pipeline_prerequisites_report
      ⟨fun _ => .ok (), fun db => db == "l2", fun _ _ _ => (true, []), true, 3⟩
      ⟨"u", "p", "h", "5432", "root", "src", ["l1", "l2"], ["b1"]⟩
      "02_run_profiling_pipeline.py").2.2 rfl rfl]
    decide
  · exact (check_pipeline_prerequisites_report
      ⟨fun _ => .error "bad port", fun _ => true, fun _ _ _ => (true, []), true, 3⟩
      ⟨"u", "p", "h", "x", "root", "src", [], []⟩
      "02_run_profiling_pipeline.py").2.1 "bad port" rfl

/-- C10: when the query-script file does not exist, or reading it raises
the caught `IOError`, `run_performance_benchmarks` returns the empty
result table — no exception, no `Failed` row. -/
theorem run_performance_benchmarks_missing_file {σ : Type} (env : FileEnv)
    (ex : ExecOracle σ) (st : σ) (schema : List Char)
    (h : env.fileExists = false ∨ ∃ e, env.readResult = .error e) :
    run_performance_benchmarks env ex st schema = .ok [] := by
  unfold run_performance_benchmarks
  rcases h with h | ⟨e, h⟩
  · rw [h]
    simp
  · rw [h]
    cases hx : env.fileExists <;> simp

/-- C10 witness: a missing file and an unreadable file each yield the
empty table. -/
theorem run_performance_benchmarks_missing_file_witness :
    run_performance_benchmarks (σ := Unit) ⟨false, .ok []⟩
      (fun _ _ => .execError "e".data) () "s".data = .ok [] ∧
    run_performance_benchmarks (σ := Unit) ⟨true, .error "Permission denied".data⟩
      (fun _ _ => .execError "e".data) () "s".data = .ok [] :=
  ⟨run_performance_benchmarks_missing_file _ _ _ _ (Or.inl rfl),
   run_performance_benchmarks_missing_file _ _ _ _
     (Or.inr ⟨"Permission denied".data, rfl⟩)⟩

/-! ## The parser, phrased as the specification describes it -/

/-- Spec-side skip predicate: a chunk is dropped when it is
empty/whitespace-only, or when no SQL remains after stripping the comment
lines (a "noise chunk"). -/
def chunkSkipped (c : List Char) : Bool :=
  (pyStrip c).isEmpty || (pyStrip (stripComments c)).isEmpty

/-- Spec-side chunk conversion: tags extracted by pattern search with the
literal `"Unknown"` fallback (never null), SQL with comments stripped. -/
def chunkToUnit (c : List Char) : QueryUnit :=
  { category := (reSearchGroup matchCategoryAt c).getD "Unknown".data
    query_id := (reSearchGroup matchQueryIdAt c).getD "Unknown".data
    raw_sql := pyStrip (stripComments c) }

theorem unitOfChunk_eq_ite (c : List Char) :
    unitOfChunk c = if chunkSkipped c then none else some (chunkToUnit c) := by
  unfold unitOfChunk chunkSkipped chunkToUnit
  by_cases h1 : (pyStrip c).isEmpty
  · simp [h1]
  · by_cases h2 : (pyStrip (stripComments c)).isEmpty <;> simp [h1, h2]

/-- C4 counterexample: a chunk holding only a comment line is neither
empty nor whitespace-only, yet yields no query unit — so the unit count is
not "number of chunks minus number of empty/whitespace-only chunks". -/
theorem parseQueryUnits_count_counterexample :
    (parseQueryUnits ("-- CATEGORY: x\n-- END Query\nSELECT 1;").data).length ≠
      (pySplitEndQuery ("-- CATEGORY: x\n-- END Query\nSELECT 1;").data).length -
        ((pySplitEndQuery ("-- CATEGORY: x\n-- END Query\nSELECT 1;").data).filter
            (fun c => (pyStrip c).isEmpty)).length := by
  decide

/-- C4 amended: the parser yields, in original source order, one
`QueryUnit` per delimiter chunk that is neither empty/whitespace-only nor
comment-only (no SQL left after comment stripping); absent tags fall back
to the literal `"Unknown"`; and the two-query example script yields
exactly its two units. -/
theorem parseQueryUnits_spec :
    (∀ script : List Char,
      parseQueryUnits script =
        ((pySplitEndQuery script).filter (fun c => !(chunkSkipped c))).map
          chunkToUnit
      ∧ (parseQueryUnits script).length =
          (pySplitEndQuery script).length -
            ((pySplitEndQuery script).filter chunkSkipped).length)
    ∧ (∀ chunk, reSearchGroup matchCategoryAt chunk = none →
        (chunkToUnit chunk).category = "Unknown".data)
    ∧ (∀ chunk, reSearchGroup matchQueryIdAt chunk = none →
        (chunkToUnit chunk).query_id = "Unknown".data)
    ∧ parseQueryUnits ("-- CATEGORY: baseline\n-- QUERY: 1.1\nSELECT 1;\n-- END Query\n\n-- CATEGORY: perf\n-- QUERY: 2.1\nSELECT 2;\n-- END Query").data
        = [⟨"baseline".data, "1.1".data, "SELECT 1;".data⟩,
           ⟨"perf".data, "2.1".data, "SELECT 2;".data⟩] := by
  refine ⟨?_, ?_, ?_, by decide⟩
  · intro script
    have hrw : parseQueryUnits script =
        (pySplitEndQuery script).filterMap
          (fun c => if chunkSkipped c then none else some (chunkToUnit c)) := by
      unfold parseQueryUnits
      exact List.filterMap_congr (fun c _ => unitOfChunk_eq_ite c)
    constructor
    · rw [hrw]
      exact filterMap_ite_eq_filter_map _ _ _
    · rw [hrw, filterMap_ite_eq_filter_map, List.length_map]
      have := List.length_eq_length_filter_add (l := pySplitEndQuery script)
        chunkSkipped
      omega
  · intro chunk h
    simp [chunkToUnit, h]
  · intro chunk h
    simp [chunkToUnit, h]

/-- C4 witness: the fallback clauses of `parseQueryUnits_spec` applied to a
concrete untagged chunk. -/
theorem parseQueryUnits_spec_witness :
    (chunkToUnit "SELECT 2;".data).category = "Unknown".data ∧
    (chunkToUnit "SELECT 2;".data).query_id = "Unknown".data ∧
    parseQueryUnits "SELECT 2;".data =
      [⟨"Unknown".data, "Unknown".data, "SELECT 2;".data⟩] := by
  refine ⟨parseQueryUnits_spec.2.1 "SELECT 2;".data (by decide),
    parseQueryUnits_spec.2.2.1 "SELECT 2;".data (by decide), by decide⟩

/-- Successful results of the benchmark loop list exactly the parsed query
units, in source order (by their synthesised names). -/
theorem runBenchLoop_ok_names {σ : Type} (ex : ExecOracle σ)
    (schema : List Char) :
    ∀ (chunks : List (List Char)) (st : σ) (rows : List BenchRow),
      runBenchLoop ex schema st chunks = .ok rows →
      rows.map BenchRow.query_name =
        (chunks.filterMap unitOfChunk).map queryNameOf := by
  intro chunks
  induction chunks with
  | nil =>
    intro st rows h
    simp only [runBenchLoop, Except.ok.injEq] at h
    simp [← h]
  | cons chunk rest ih =>
    intro st rows h
    rw [runBenchLoop] at h
    cases hu : unitOfChunk chunk with
    | none =>
      simp only [hu] at h
      simpa [List.filterMap_cons, hu] using ih st rows h
    | some u =>
      simp only [hu] at h
      cases hx : ex st (substSchema schema u.raw_sql) with
      | committed st' records elapsedMs =>
        simp only [hx] at h
        cases hrec : runBenchLoop ex schema st' rest with
        | ok rows' =>
          simp only [hrec, Except.ok.injEq] at h
          subst h
          simp only [List.map_cons, List.filterMap_cons, hu]
          exact congrArg (queryNameOf u :: ·) (ih st' rows' hrec)
        | error e => simp [hrec] at h
      | commitError records elapsedMs msg =>
        simp only [hx] at h
        cases hf : pyFirstSplitline msg with
        | none => simp [hf] at h
        | some first =>
          simp only [hf] at h
          cases hrec : runBenchLoop ex schema st rest with
          | ok rows' =>
            simp only [hrec, Except.ok.injEq] at h
            subst h
            simp only [List.map_cons, List.filterMap_cons, hu]
            exact congrArg (queryNameOf u :: ·) (ih st rows' hrec)
          | error e => simp [hrec] at h
      | execError msg =>
        simp only [hx] at h
        cases hf : pyFirstSplitline msg with
        | none => simp [hf] at h
        | some first =>
          simp only [hf] at h
          cases hrec : runBenchLoop ex schema st rest with
          | ok rows' =>
            simp only [hrec, Except.ok.injEq] at h
            subst h
            simp only [List.map_cons, List.filterMap_cons, hu]
            exact congrArg (queryNameOf u :: ·) (ih st rows' hrec)
          | error e => simp [hrec] at h

/-- C5: each query runs in its own transaction.  A query whose execution
raises is recorded as a `Failed` row and — the rollback — the rest of the
batch continues from the unchanged committed state, so a later valid query
still succeeds; the same isolation holds when the exception is raised at
`trans.commit()`; the result list preserves source order.  The last clause
is the two-query instance: a failing first query and a valid second query
yield `[Failed, Success]`. -/
theorem runBenchLoop_transaction_isolation :
    ∀ (σ : Type) (ex : ExecOracle σ) (schema : List Char),
      (∀ (st : σ) (chunks : List (List Char)) (rows : List BenchRow),
          runBenchLoop ex schema st chunks = .ok rows →
          rows.map BenchRow.query_name =
            (chunks.filterMap unitOfChunk).map queryNameOf)
      ∧ (∀ (st : σ) (chunk : List Char) (rest : List (List Char))
            (u : QueryUnit) (msg first : List Char),
          unitOfChunk chunk = some u →
          ex st (substSchema schema u.raw_sql) = .execError msg →
          pyFirstSplitline msg = some first →
          runBenchLoop ex schema st (chunk :: rest) =
            Except.map
              (fun rows => failedRow u (substSchema schema u.raw_sql) first :: rows)
              (runBenchLoop ex schema st rest))
      ∧ (∀ (st : σ) (chunk : List Char) (rest : List (List Char))
            (u : QueryUnit) (records : ℕ) (elapsedMs : ℚ) (msg first : List Char),
          unitOfChunk chunk = some u →
          ex st (substSchema schema u.raw_sql) = .commitError records elapsedMs msg →
          pyFirstSplitline msg = some first →
          runBenchLoop ex schema st (chunk :: rest) =
            Except.map
              (fun rows =>
                commitFailedRow u (substSchema schema u.raw_sql) first records
                    elapsedMs :: rows)
              (runBenchLoop ex schema st rest))
      ∧ (∀ (st : σ) (c1 c2 : List Char) (u1 u2 : QueryUnit)
            (msg first : List Char) (st2 : σ) (records : ℕ) (elapsedMs : ℚ),
          unitOfChunk c1 = some u1 → unitOfChunk c2 = some u2 →
          ex st (substSchema schema u1.raw_sql) = .execError msg →
          pyFirstSplitline msg = some first →
          ex st (substSchema schema u2.raw_sql) = .committed st2 records elapsedMs →
          runBenchLoop ex schema st [c1, c2] =
            .ok [failedRow u1 (substSchema schema u1.raw_sql) first,
                 successRow u2 (substSchema schema u2.raw_sql) records elapsedMs]) := by
  intro σ ex schema
  refine ⟨fun st chunks => runBenchLoop_ok_names ex schema chunks st, ?_, ?_, ?_⟩
  · intro st chunk rest u msg first hu hx hf
    rw [runBenchLoop]
    simp only [hu, hx, hf]
    cases hrec : runBenchLoop ex schema st rest <;> simp [Except.map, hrec]
  · intro st chunk rest u records elapsedMs msg first hu hx hf
    rw [runBenchLoop]
    simp only [hu, hx, hf]
    cases hrec : runBenchLoop ex schema st rest <;> simp [Except.map, hrec]
  · intro st c1 c2 u1 u2 msg first st2 records elapsedMs h1 h2 hx hf hr
    rw [runBenchLoop]
    simp only [h1, hx, hf]
    rw [runBenchLoop]
    simp only [h2, hr]
    rw [runBenchLoop]

/-- A concrete connection oracle for witnesses: one bad statement, all
other statements commit and advance the committed state. -/
def exW5 : ExecOracle ℕ := fun st sql =>
  if sql = "SELECT * FROM missing;".data then
    .execError "relation missing does not exist".data
  else .committed (st + 1) 1 5

/-- C5 witness: the two-query batch — the first query failing, the second
valid — yields exactly `[Failed, Success]`, in order. -/
theorem runBenchLoop_transaction_isolation_witness :
    runBenchLoop exW5 "s".data 0
        ["SELECT * FROM missing;".data, "SELECT 1;".data] =
      .ok [failedRow ⟨"Unknown".data, "Unknown".data, "SELECT * FROM missing;".data⟩
             "SELECT * FROM missing;".data "relation missing does not exist".data,
           successRow ⟨"Unknown".data, "Unknown".data, "SELECT 1;".data⟩
             "SELECT 1;".data 1 5] :=
  (runBenchLoop_transaction_isolation ℕ exW5 "s".data).2.2.2 0
    "SELECT * FROM missing;".data "SELECT 1;".data
    ⟨"Unknown".data, "Unknown".data, "SELECT * FROM missing;".data⟩
    ⟨"Unknown".data, "Unknown".data, "SELECT 1;".data⟩
    "relation missing does not exist".data
    "relation missing does not exist".data
    1 1 5 (by decide) (by decide) rfl (by decide) rfl

/-- Row invariant of the benchmark loop, under the guarantee that the
monotonic clock never measures a negative elapsed time (on the committed
and the commit-failure paths alike). -/
theorem runBenchLoop_row_invariant {σ : Type} (ex : ExecOracle σ)
    (schema : List Char)
    (hclock : ∀ (s : σ) (q : List Char) (s' : σ) (n : ℕ) (t : ℚ),
      ex s q = .committed s' n t → 0 ≤ t)
    (hclock2 : ∀ (s : σ) (q : List Char) (n : ℕ) (t : ℚ) (m : List Char),
      ex s q = .commitError n t m → 0 ≤ t) :
    ∀ (chunks : List (List Char)) (st : σ) (rows : List BenchRow),
      runBenchLoop ex schema st chunks = .ok rows →
      ∀ row ∈ rows,
        (row.status = "Success" ∨ row.status = "Failed")
        ∧ (row.status = "Success" →
            (∃ q, row.latency_ms = some q ∧ 0 ≤ q) ∧ row.error_message = [])
        ∧ (row.status = "Failed" →
            ∃ (s : σ) (msg : List Char),
              pyFirstSplitline msg = some row.error_message ∧
              ((ex s row.executed_sql = .execError msg ∧
                  row.latency_ms = none ∧ row.records_returned = 0)
               ∨ (∃ t, ex s row.executed_sql =
                    .commitError row.records_returned t msg ∧
                  row.latency_ms = some t ∧ 0 ≤ t))) := by
  intro chunks
  induction chunks with
  | nil =>
    intro st rows h
    simp only [runBenchLoop, Except.ok.injEq] at h
    subst h
    intro row hrow
    simp at hrow
  | cons chunk rest ih =>
    intro st rows h
    rw [runBenchLoop] at h
    cases hu : unitOfChunk chunk with
    | none =>
      simp only [hu] at h
      exact ih st rows h
    | some u =>
      simp only [hu] at h
      cases hx : ex st (substSchema schema u.raw_sql) with
      | committed st' records elapsedMs =>
        simp only [hx] at h
        cases hrec : runBenchLoop ex schema st' rest with
        | ok rows' =>
          simp only [hrec, Except.ok.injEq] at h
          subst h
          intro row hrow
          rcases List.mem_cons.mp hrow with hrow | hrow
          · subst hrow
            refine ⟨Or.inl rfl, ?_, ?_⟩
            · intro _
              exact ⟨⟨elapsedMs, rfl, hclock st _ st' records elapsedMs hx⟩, rfl⟩
            · intro hst; simp [successRow] at hst
          · exact ih st' rows' hrec row hrow
        | error e => simp [hrec] at h
      | commitError records elapsedMs msg =>
        simp only [hx] at h
        cases hf : pyFirstSplitline msg with
        | none => simp [hf] at h
        | some first =>
          simp only [hf] at h
          cases hrec : runBenchLoop ex schema st rest with
          | ok rows' =>
            simp only [hrec, Except.ok.injEq] at h
            subst h
            intro row hrow
            rcases List.mem_cons.mp hrow with hrow | hrow
            · subst hrow
              refine ⟨Or.inr rfl, ?_, ?_⟩
              · intro hst; simp [commitFailedRow] at hst
              · intro _
                exact ⟨st, msg, hf,
                  Or.inr ⟨elapsedMs, hx, rfl,
                    hclock2 st _ records elapsedMs msg hx⟩⟩
            · exact ih st rows' hrec row hrow
          | error e => simp [hrec] at h
      | execError msg =>
        simp only [hx] at h
        cases hf : pyFirstSplitline msg with
        | none => simp [hf] at h
        | some first =>
          simp only [hf] at h
          cases hrec : runBenchLoop ex schema st rest with
          | ok rows' =>
            simp only [hrec, Except.ok.injEq] at h
            subst h
            intro row hrow
            rcases List.mem_cons.mp hrow with hrow | hrow
            · subst hrow
              refine ⟨Or.inr rfl, ?_, ?_⟩
              · intro hst; simp [failedRow] at hst
              · intro _
                exact ⟨st, msg, hf, Or.inl ⟨hx, rfl, rfl⟩⟩
            · exact ih st rows' hrec row hrow
          | error e => simp [hrec] at h

/-- C9 amended: every row a successful `run_performance_benchmarks` run
produces has status `Success` or `Failed`; a `Success` row has a
non-negative latency (the clock is monotonic) and an empty
`error_message`; a `Failed` row carries as `error_message` the first line
of the exception its executed SQL raised (non-empty only when that line
is) and either stems from an execute/fetch failure — null `latency_ms`,
zero `records_returned` — or from a commit failure, keeping the
already-measured non-negative `latency_ms` and the fetched
`records_returned`. -/
theorem bench_result_row_invariant {σ : Type} (env : FileEnv)
    (ex : ExecOracle σ) (st : σ) (schema : List Char) (rows : List BenchRow)
    (hclock : ∀ (s : σ) (q : List Char) (s' : σ) (n : ℕ) (t : ℚ),
      ex s q = .committed s' n t → 0 ≤ t)
    (hclock2 : ∀ (s : σ) (q : List Char) (n : ℕ) (t : ℚ) (m : List Char),
      ex s q = .commitError n t m → 0 ≤ t)
    (hrun : run_performance_benchmarks env ex st schema = .ok rows) :
    ∀ row ∈ rows,
      (row.status = "Success" ∨ row.status = "Failed")
      ∧ (row.status = "Success" →
          (∃ q, row.latency_ms = some q ∧ 0 ≤ q) ∧ row.error_message = [])
      ∧ (row.status = "Failed" →
          ∃ (s : σ) (msg : List Char),
            pyFirstSplitline msg = some row.error_message ∧
            ((ex s row.executed_sql = .execError msg ∧
                row.latency_ms = none ∧ row.records_returned = 0)
             ∨ (∃ t, ex s row.executed_sql =
                  .commitError row.records_returned t msg ∧
                row.latency_ms = some t ∧ 0 ≤ t))) := by
  unfold run_performance_benchmarks at hrun
  by_cases hex : env.fileExists = false
  · rw [if_pos hex] at hrun
    cases hrun
    intro row hrow
    simp at hrow
  · rw [if_neg hex] at hrun
    cases hread : env.readResult with
    | error e =>
      rw [hread] at hrun
      cases hrun
      intro row hrow
      simp at hrow
    | ok script =>
      rw [hread] at hrun
      exact runBenchLoop_row_invariant ex schema hclock hclock2 _ st rows hrun

/-- A connection oracle whose first statement fails at commit time and
whose other statements raise an exception with a leading line break. -/
def exW9 : ExecOracle Unit := fun _ sql =>
  if sql = "SELECT 1;".data then
    .commitError 3 7 "could not serialize access due to concurrent update".data
  else .execError "\nboom".data

/-- C9 counterexample: a commit-time exception produces a `Failed` row
whose `latency_ms` is the already-measured value (not null), and an
exception whose text begins with a line break produces a `Failed` row
whose `error_message` is empty — refuting both "`Failed` implies
`latency_ms` is null" and "`Failed` implies `error_message` is
non-empty". -/
theorem bench_failed_row_invariant_counterexample :
    run_performance_benchmarks
        ⟨true, .ok "SELECT 1;\n-- END Query\nSELECT 2;".data⟩
        exW9 () "s".data =
      .ok [{ query_name := "Unknown Performance - Query Unknown".data
             status := "Failed"
             latency_ms := some 7
             records_returned := 3
             error_message :=
               "could not serialize access due to concurrent update".data
             executed_sql := "SELECT 1;".data },
           { query_name := "Unknown Performance - Query Unknown".data
             status := "Failed"
             latency_ms := none
             records_returned := 0
             error_message := []
             executed_sql := "SELECT 2;".data }] := by
  rfl

/-- C9 witness: the amended invariant applied to a concrete run holding a
commit-failure row and an execute-failure row. -/
theorem bench_result_row_invariant_witness :
    (commitFailedRow ⟨"Unknown".data, "Unknown".data, "SELECT 1;".data⟩
        "SELECT 1;".data
        "could not serialize access due to concurrent update".data
        3 7).status = "Success" ∨
    (commitFailedRow ⟨"Unknown".data, "Unknown".data, "SELECT 1;".data⟩
        "SELECT 1;".data
        "could not serialize access due to concurrent update".data
        3 7).status = "Failed" := by
  have h := bench_result_row_invariant (σ := Unit)
    ⟨true, .ok "SELECT 1;\n-- END Query\nSELECT 2;".data⟩
    exW9 () "s".data
    [commitFailedRow ⟨"Unknown".data, "Unknown".data, "SELECT 1;".data⟩
       "SELECT 1;".data
       "could not serialize access due to concurrent update".data 3 7,
     failedRow ⟨"Unknown".data, "Unknown".data, "SELECT 2;".data⟩
       "SELECT 2;".data []]
    (by
      intro s q s' n t h
      unfold exW9 at h
      by_cases hc : q = "SELECT 1;".data
      · rw [if_pos hc] at h
        cases h
      · rw [if_neg hc] at h
        cases h)
    (by
      intro s q n t m h
      unfold exW9 at h
      by_cases hc : q = "SELECT 1;".data
      · rw [if_pos hc] at h
        cases h
        norm_num
      · rw [if_neg hc] at h
        cases h)
    rfl
  exact (h _ (by simp)).1

/-- Branch-level evaluation of `calculate_comparative_performance_metrics`,
with the concatenated frame written via `labeledPool`. -/
theorem calc_comparative_eval (all_data : List DbEntry) :
    calculate_comparative_performance_metrics all_data =
      (if (all_data.filterMap
            (fun d => d.perf.map (fun rows => rows.map (labelRow d)))).isEmpty
        then .emptyTable
        else if ((labeledPool all_data).filter
            (fun r => r.status == "Success")).isEmpty then .emptyTable
        else if (benchmarkDbs ((labeledPool all_data).filter
            (fun r => r.status == "Success"))).isEmpty then
          .rawSuccess ((labeledPool all_data).filter (fun r => r.status == "Success"))
        else
          .table
            (((labeledPool all_data).filter (fun r => r.status == "Success")).map
              (codeCompRow
                ((labeledPool all_data).filter (fun r => r.status == "Success"))
                (benchmarkDbs
                  ((labeledPool all_data).filter (fun r => r.status == "Success")))))) :=
  rfl

/-- C1 counterexample: a pool holding one Success row of a non-benchmark
database — so no row belongs to a benchmark-flagged database — does not
produce an empty table: the function returns the `df_success` rows
unchanged (line 255 of `04_run_comparison.py`). -/
theorem calc_comparative_no_benchmark_counterexample :
    calculate_comparative_performance_metrics
        [⟨"leg", false, some [⟨"A - q", "Success", some 5⟩]⟩] =
      .rawSuccess
        [labelRow ⟨"leg", false, some [⟨"A - q", "Success", some 5⟩]⟩
          ⟨"A - q", "Success", some 5⟩] ∧
    (CompOutput.rawSuccess
        [labelRow ⟨"leg", false, some [⟨"A - q", "Success", some 5⟩]⟩
          ⟨"A - q", "Success", some 5⟩]) ≠ .emptyTable := by
  constructor
  · rfl
  · intro h
    cases h

/-- C1 amended: with no Success row (or no performance data at all) the
result is the empty table and no exception is raised; with Success rows
but none of them from a benchmark-flagged database, the function instead
returns the Success rows unchanged, without comparative columns. -/
theorem calc_comparative_empty_and_raw (all_data : List DbEntry) :
    ((∀ r ∈ labeledPool all_data, r.status ≠ "Success") →
      calculate_comparative_performance_metrics all_data = .emptyTable)
    ∧ ((∃ r ∈ labeledPool all_data, r.status = "Success") →
        (∀ r ∈ labeledPool all_data, r.is_benchmark = true → r.status ≠ "Success") →
        calculate_comparative_performance_metrics all_data =
          .rawSuccess
            ((labeledPool all_data).filter (fun r => r.status == "Success"))) := by
  constructor
  · intro h
    rw [calc_comparative_eval]
    by_cases hpd : (all_data.filterMap
        (fun d => d.perf.map (fun rows => rows.map (labelRow d)))).isEmpty
    · rw [if_pos hpd]
    · rw [if_neg hpd]
      have hfs : (labeledPool all_data).filter (fun r => r.status == "Success") = [] :=
        List.filter_eq_nil_iff.mpr (fun r hr => by simpa using h r hr)
      rw [hfs]
      simp
  · rintro ⟨r, hr, hs⟩ h2
    rw [calc_comparative_eval]
    have hrs : r ∈ (labeledPool all_data).filter (fun r => r.status == "Success") :=
      List.mem_filter.mpr ⟨hr, by simp [hs]⟩
    have hpd : ¬ (all_data.filterMap
        (fun d => d.perf.map (fun rows => rows.map (labelRow d)))).isEmpty = true := by
      intro hpd
      have : labeledPool all_data = [] := by
        unfold labeledPool
        rw [List.isEmpty_iff.mp hpd]
        rfl
      rw [this] at hr
      exact List.not_mem_nil r hr
    rw [if_neg hpd]
    rw [if_neg (by
      intro hempty
      rw [List.isEmpty_iff.mp hempty] at hrs
      exact List.not_mem_nil r hrs)]
    have hbd : benchmarkDbs ((labeledPool all_data).filter
        (fun r => r.status == "Success")) = [] := by
      unfold benchmarkDbs
      have : ((labeledPool all_data).filter
          (fun r => r.status == "Success")).filter (fun r => r.is_benchmark) = [] := by
        refine List.filter_eq_nil_iff.mpr (fun x hx => ?_)
        have hxp := List.mem_filter.mp hx
        have := h2 x hxp.1
        intro hb
        exact this hb (by simpa using hxp.2)
      rw [this]
      rfl
    rw [if_pos (by rw [hbd]; rfl)]

/-- C1 witness: the two amended clauses applied to concrete pools — a pool
whose only row Failed yields the empty table; a Success-only non-benchmark
pool yields its Success rows unchanged. -/
theorem calc_comparative_empty_and_raw_witness :
    calculate_comparative_performance_metrics
        [⟨"leg", false, some [⟨"A - q", "Failed", none⟩]⟩] = .emptyTable ∧
    calculate_comparative_performance_metrics
        [⟨"leg", false, some [⟨"A - q", "Success", some 5⟩]⟩] =
      .rawSuccess
        ((labeledPool [⟨"leg", false, some [⟨"A - q", "Success", some 5⟩]⟩]).filter
          (fun r => r.status == "Success")) := by
  constructor
  · exact (calc_comparative_empty_and_raw
      [⟨"leg", false, some [⟨"A - q", "Failed", none⟩]⟩]).1 (by decide)
  · exact (calc_comparative_empty_and_raw
      [⟨"leg", false, some [⟨"A - q", "Success", some 5⟩]⟩]).2
      ⟨labelRow ⟨"leg", false, some [⟨"A - q", "Success", some 5⟩]⟩
        ⟨"A - q", "Success", some 5⟩, by decide, rfl⟩ (by decide)

/-! ## Comparative metrics, phrased as the specification describes them -/

/-- Spec-side baseline: for a category, the minimum `latency_ms` among the
Success rows of benchmark-flagged databases sharing that category. -/
def specBaseline (pool : List PerfRow) (cat : String) : Option ℚ :=
  ((pool.filter (fun x =>
      (x.status == "Success") && x.is_benchmark && (x.category == cat))).filterMap
    (fun x => x.latency_ms)).min?

/-- Spec-side output row: `schema_efficiency_factor` is
`latency_ms / baseline_latency_ms` rounded to two decimals,
`performance_improvement_factor` is
`((latency_ms - baseline_latency_ms) / latency_ms) * 100` rounded to two
decimals, and every row of a benchmark-flagged database has its
`performance_improvement_factor` forced to exactly `0.0`.  A row whose
category has no benchmark Success row (no baseline) keeps NaN factors. -/
def specCompRow (pool : List PerfRow) (r : PerfRow) : CompRow :=
  match r.latency_ms, specBaseline pool r.category with
  | some l, some b =>
    { row := r
      baseline_latency_ms := some b
      schema_efficiency_factor := some (round2 (l / b))
      performance_improvement_factor :=
        if r.is_benchmark then some 0 else some (round2 ((l - b) / l * 100)) }
  | _, b =>
    { row := r
      baseline_latency_ms := b
      schema_efficiency_factor := none
      performance_improvement_factor := if r.is_benchmark then some 0 else none }

theorem mem_labeledPool_iff {all_data : List DbEntry} {x : PerfRow} :
    x ∈ labeledPool all_data ↔
      ∃ d ∈ all_data, ∃ rows, d.perf = some rows ∧
        ∃ r ∈ rows, labelRow d r = x := by
  simp only [labeledPool, List.mem_flatten, List.mem_filterMap,
    Option.map_eq_some', List.mem_map]
  constructor
  · rintro ⟨l, ⟨d, hd, rows, hperf, rfl⟩, hx⟩
    obtain ⟨r, hr, hrx⟩ := List.mem_map.mp hx
    exact ⟨d, hd, rows, hperf, r, hr, hrx⟩
  · rintro ⟨d, hd, rows, hperf, r, hr, rfl⟩
    exact ⟨rows.map (labelRow d), ⟨d, hd, rows, hperf, rfl⟩,
      List.mem_map_of_mem _ hr⟩

/-- With distinct database names (the input is a dict keyed by database),
the `is_benchmark` tag is a function of the `database` tag across the
pool. -/
theorem labeledPool_flag_consistent {all_data : List DbEntry}
    (hnodup : (all_data.map DbEntry.database).Nodup) :
    ∀ r1 ∈ labeledPool all_data, ∀ r2 ∈ labeledPool all_data,
      r1.database = r2.database → r1.is_benchmark = r2.is_benchmark := by
  intro r1 h1 r2 h2 hdb
  obtain ⟨d1, hd1, rows1, hp1, x1, hx1, rfl⟩ := mem_labeledPool_iff.mp h1
  obtain ⟨d2, hd2, rows2, hp2, x2, hx2, rfl⟩ := mem_labeledPool_iff.mp h2
  have hd : d1 = d2 :=
    List.inj_on_of_nodup_map hnodup hd1 hd2 (by simpa [labelRow] using hdb)
  subst hd
  simp [labelRow]

/-- Positivity of every pool latency, inherited from the per-file
hypothesis. -/
theorem labeledPool_latency_pos {all_data : List DbEntry}
    (hlat : ∀ d ∈ all_data, ∀ rows, d.perf = some rows →
      ∀ r ∈ rows, r.status = "Success" → ∃ q, r.latency_ms = some q ∧ 0 < q) :
    ∀ x ∈ labeledPool all_data, x.status = "Success" →
      ∃ q, x.latency_ms = some q ∧ 0 < q := by
  intro x hx hxs
  obtain ⟨d, hd, rows, hperf, r, hr, rfl⟩ := mem_labeledPool_iff.mp hx
  obtain ⟨q, hq, hqpos⟩ := hlat d hd rows hperf r hr (by simpa [labelRow] using hxs)
  exact ⟨q, by simpa [labelRow] using hq, hqpos⟩

/-- C2: with dict-unique database names, positive numeric latencies, and
at least one Success row from a benchmark-flagged database, the function
returns the comparative table and every row follows the specification's
formulas: the per-category baseline is the minimum Success latency of
benchmark-flagged databases, `schema_efficiency_factor` is
`latency / baseline` rounded to two decimals,
`performance_improvement_factor` is
`((latency - baseline) / latency) * 100` rounded to two decimals, and
benchmark rows are forced to exactly `0.0`. -/
theorem calc_comparative_formulas (all_data : List DbEntry)
    (hnodup : (all_data.map DbEntry.database).Nodup)
    (hlat : ∀ d ∈ all_data, ∀ rows, d.perf = some rows →
      ∀ r ∈ rows, r.status = "Success" → ∃ q, r.latency_ms = some q ∧ 0 < q)
    (hbench : ∃ d ∈ all_data, d.is_benchmark = true ∧
      ∃ rows, d.perf = some rows ∧ ∃ r ∈ rows, r.status = "Success") :
    calculate_comparative_performance_metrics all_data =
      .table
        (((labeledPool all_data).filter (fun r => r.status == "Success")).map
          (specCompRow (labeledPool all_data))) := by
  obtain ⟨d, hd, hdb, rows, hperf, rb, hrb, hrbs⟩ := hbench
  have hlatp := labeledPool_latency_pos hlat
  have hrbpool : labelRow d rb ∈ labeledPool all_data :=
    mem_labeledPool_iff.mpr ⟨d, hd, rows, hperf, rb, hrb, rfl⟩
  rw [calc_comparative_eval]
  set S := (labeledPool all_data).filter (fun r => r.status == "Success") with hS
  have hrbS : labelRow d rb ∈ S := by
    rw [hS]
    exact List.mem_filter.mpr ⟨hrbpool, by simp [labelRow, hrbs]⟩
  have hBmem : ∀ x ∈ S, (benchmarkDbs S).contains x.database = x.is_benchmark := by
    intro x hx
    by_cases hb : x.is_benchmark
    · rw [hb]
      have hxd : x.database ∈ benchmarkDbs S := by
        unfold benchmarkDbs
        rw [List.mem_dedup]
        exact List.mem_map_of_mem _ (List.mem_filter.mpr ⟨hx, by simp [hb]⟩)
      exact List.elem_eq_true_of_mem hxd
    · rw [Bool.not_eq_true] at hb
      rw [hb]
      by_contra hc
      rw [Bool.not_eq_false] at hc
      have hmem := List.mem_of_elem_eq_true hc
      unfold benchmarkDbs at hmem
      rw [List.mem_dedup] at hmem
      obtain ⟨y, hy, hydb⟩ := List.mem_map.mp hmem
      have hyS := List.mem_filter.mp hy
      have hypool : y ∈ labeledPool all_data := by
        have := hyS.1
        rw [hS] at this
        exact (List.mem_filter.mp this).1
      have hxpool : x ∈ labeledPool all_data := by
        rw [hS] at hx
        exact (List.mem_filter.mp hx).1
      have hflag := labeledPool_flag_consistent hnodup y hypool x hxpool hydb
      have hyb : y.is_benchmark = true := by simpa using hyS.2
      rw [hflag, hb] at hyb
      cases hyb
  have hbenchmem : (labelRow d rb).database ∈ benchmarkDbs S := by
    unfold benchmarkDbs
    rw [List.mem_dedup]
    exact List.mem_map_of_mem _
      (List.mem_filter.mpr ⟨hrbS, by simp [labelRow, hdb]⟩)
  rw [if_neg (by
    intro hpd
    have hnil : labeledPool all_data = [] := by
      unfold labeledPool
      rw [List.isEmpty_iff.mp hpd]
      rfl
    rw [hnil] at hrbpool
    exact List.not_mem_nil _ hrbpool)]
  rw [if_neg (by
    intro hempty
    rw [List.isEmpty_iff.mp hempty] at hrbS
    exact List.not_mem_nil _ hrbS)]
  rw [if_neg (by
    intro hempty
    rw [List.isEmpty_iff.mp hempty] at hbenchmem
    exact List.not_mem_nil _ hbenchmem)]
  refine congrArg CompOutput.table (List.map_congr_left ?_)
  intro r hrS
  have hrpool : r ∈ labeledPool all_data := by
    rw [hS] at hrS
    exact (List.mem_filter.mp hrS).1
  have hfeq : ∀ cat : String,
      S.filter (fun x => (benchmarkDbs S).contains x.database && (x.category == cat))
        = (labeledPool all_data).filter (fun x =>
            (x.status == "Success") && x.is_benchmark && (x.category == cat)) := by
    intro cat
    rw [hS, List.filter_filter]
    apply List.filter_congr
    intro x hxpool
    by_cases hsx : (x.status == "Success")
    · have hxS : x ∈ S := by
        rw [hS]
        exact List.mem_filter.mpr ⟨hxpool, hsx⟩
      rw [show ((labeledPool all_data).filter fun r => r.status == "Success") = S
        from hS.symm]
      rw [hBmem x hxS, hsx]
      simp
    · rw [Bool.not_eq_true] at hsx
      rw [show ((labeledPool all_data).filter fun r => r.status == "Success") = S
        from hS.symm]
      simp [hsx]
  have hbase : baselineLatency S (benchmarkDbs S) r.category
      = specBaseline (labeledPool all_data) r.category := by
    unfold baselineLatency specBaseline
    rw [hfeq r.category]
  have hrSuc : r.status = "Success" := by
    have h2 := hrS
    rw [hS] at h2
    simpa using (List.mem_filter.mp h2).2
  obtain ⟨l, hl, hlpos⟩ := hlatp r hrpool hrSuc
  unfold codeCompRow specCompRow
  rw [hbase, hl, hBmem r hrS]
  cases hbb : specBaseline (labeledPool all_data) r.category with
  | none => simp [optDiv, optSub]
  | some b =>
    have hbpos : 0 < b := by
      have hbb' := hbb
      unfold specBaseline at hbb'
      have hmm := List.min?_mem (fun x y => min_choice x y) hbb'
      obtain ⟨x, hxmem, hxlat⟩ := List.mem_filterMap.mp hmm
      have hxpool : x ∈ labeledPool all_data := (List.mem_filter.mp hxmem).1
      have hxSuc : x.status = "Success" := by
        have h2 := (List.mem_filter.mp hxmem).2
        simp only [Bool.and_eq_true, beq_iff_eq] at h2
        exact h2.1.1
      obtain ⟨q, hq, hqpos⟩ := hlatp x hxpool hxSuc
      rw [hq] at hxlat
      cases hxlat
      exact hqpos
    simp only [optDiv, optSub]
    rw [if_neg hbpos.ne', if_neg hlpos.ne']
    simp

/-- A benchmark-flagged database entry with one 100 ms Success row, for the
comparative-metric witness. -/
def entB : DbEntry :=
  ⟨"tmp_benchmark_db", true, some [⟨"Base - Query 1", "Success", some 100⟩]⟩

/-- A non-benchmark database entry with one 150 ms Success row in the same
category, plus a Failed row with null latency (as ordinary mixed pools
contain), for the comparative-metric witness. -/
def entL : DbEntry :=
  ⟨"legacy_db", false,
    some [⟨"Base - Query 1", "Success", some 150⟩,
          ⟨"Base - Query 9", "Failed", none⟩]⟩

/-- C2 witness: on the specification's example — one benchmark database at
100 ms and one non-benchmark database at 150 ms in the same category — the
benchmark row gets efficiency factor `1.0` and improvement factor `0.0`,
the non-benchmark row gets `1.5` and `33.33`. -/
theorem calc_comparative_formulas_witness :
    calculate_comparative_performance_metrics [entB, entL] =
      .table
        [⟨labelRow entB ⟨"Base - Query 1", "Success", some 100⟩,
            some 100, some 1, some 0⟩,
         ⟨labelRow entL ⟨"Base - Query 1", "Success", some 150⟩,
            some 100, some (3 / 2), some (3333 / 100)⟩] := by
  have h := calc_comparative_formulas [entB, entL]
    (by decide)
    (by
      intro d hd rows hperf r hr hstatus
      rcases List.mem_cons.mp hd with rfl | hd2
      · cases hperf
        rcases List.mem_cons.mp hr with rfl | hr2
        · exact ⟨100, rfl, by norm_num⟩
        · simp at hr2
      · rcases List.mem_cons.mp hd2 with rfl | hd3
        · cases hperf
          rcases List.mem_cons.mp hr with rfl | hr2
          · exact ⟨150, rfl, by norm_num⟩
          · rcases List.mem_cons.mp hr2 with rfl | hr3
            · simp at hstatus
            · simp at hr3
        · simp at hd3)
    ⟨entB, by simp, rfl, [⟨"Base - Query 1", "Success", some 100⟩], rfl,
      ⟨"Base - Query 1", "Success", some 100⟩, by simp, rfl⟩
  rw [h]
  simp only [labeledPool, entB, entL, labelRow, categoryOf, queryIdOf,
    pySplitDash, splitDashGo, List.filterMap, List.map, List.filter,
    List.flatten, specCompRow, specBaseline]
  norm_num
  refine ⟨?_, ?_, ?_⟩
  · simp only [round2, rhEven]
    norm_num
  · simp only [round2, rhEven]
    norm_num
  · simp only [round2, rhEven]
    norm_num
